import Mathlib

/-!
Shallow embedding of the surface-lifecycle and paragraph wrapper layer of the
`skia-safe` crate (files `src/core/surface.rs` and
`src/modules/paragraph/paragraph.rs`).

The Rust layer is thin glue over a native engine.  The glue logic that lives in
the two source files (buffer-size validation before the FFI call, optional row
stride defaulting, `Option`/`unwrap` translation of null pointers, integer
conversions on paragraph indices) is embedded directly from the source.  The
native entry points (`C_SkSurface_*`, `C_Paragraph_*`) are not part of the
repository; where a claim depends on them they are modelled from the
specification, and each such definition carries a doc comment starting with
`Modelled from the spec:`.

Machine integers are embedded as `Int` (Rust `i32`) and `Nat` (Rust `usize`);
byte buffers as `List Nat`.  A Rust panic is embedded as `Except.error`.
-/

namespace SkiaSafe

/-- Integer rectangle, as `IRect` (left/top/right/bottom, half-open). -/
structure IRect where
  left : Int
  top : Int
  right : Int
  bottom : Int
deriving DecidableEq, Repr

/-- A rectangle is empty when its width or height is non-positive
(`SkIRect::isEmpty`). -/
def IRect.isEmpty (r : IRect) : Bool :=
  r.right ≤ r.left ∨ r.bottom ≤ r.top

/-- Intersection of two rectangles; `none` when the intersection is empty
(`SkIRect::intersect` returns `false` on an empty intersection). -/
def IRect.intersect (a b : IRect) : Option IRect :=
  let r : IRect :=
    ⟨max a.left b.left, max a.top b.top, min a.right b.right, min a.bottom b.bottom⟩
  if r.isEmpty then none else some r

/-- Format descriptor of a pixel region (`ImageInfo`): pixel dimensions plus
the bytes-per-pixel implied by the color type.  Color-space and alpha-type
details beyond the per-pixel byte count are opaque to the claims treated
here. -/
structure ImageInfo where
  width : Int
  height : Int
  bytesPerPixel : Nat
deriving DecidableEq, Repr

/-- Modelled from the spec: the pixel-format collaborator computes the
"minimum stride implied by width and format" (`ImageInfo::min_row_bytes`,
defined outside the excerpted sources). -/
def ImageInfo.min_row_bytes (i : ImageInfo) : Nat :=
  i.width.toNat * i.bytesPerPixel

/-- Modelled from the spec: the pixel-format collaborator computes the total
byte size "`row_stride × height` computed from the format descriptor"
(`ImageInfo::compute_byte_size`, defined outside the excerpted sources). -/
def ImageInfo.compute_byte_size (i : ImageInfo) (row_bytes : Nat) : Nat :=
  i.height.toNat * row_bytes

/-- Modelled from the spec: `ImageInfo::valid_pixels` (defined outside the
excerpted sources) checks that a destination buffer is not "undersized for its
own stride/height", i.e. holds at least `compute_byte_size row_bytes` bytes. -/
def ImageInfo.valid_pixels (i : ImageInfo) (row_bytes : Nat) (pixels : List Nat) : Bool :=
  i.compute_byte_size row_bytes ≤ pixels.length

/-- Backing kind of a surface: CPU raster buffer, GPU texture, GPU render
target, or the null sink (closed set of variants, per the spec's data model). -/
inductive Backing where
  | raster
  | gpuTexture
  | gpuRenderTarget
  | null
deriving DecidableEq, Repr

/-- Drawing surface state.  `refCnt` is the native reference count observed by
`ref_counted_base()._ref_cnt()`; `genId` the content-version counter behind
`generation_id`; `canvasCache`/`nextCanvasId` model the lazily created, cached
canvas (identified by a numeric identity); `content` is the abstract byte
content at `(x, y, byte-within-pixel)`, supplied by the engine. -/
structure Surface where
  width : Int
  height : Int
  backing : Backing
  refCnt : Nat
  genId : Nat
  canvasCache : Option Nat
  nextCanvasId : Nat
  content : Int → Int → Nat → Nat

/-- Bounds of a surface: corners `(0, 0)` and `(width, height)`. -/
def Surface.bounds (s : Surface) : IRect :=
  ⟨0, 0, s.width, s.height⟩

/-- Modelled from the spec: `C_SkSurface_MakeNull` (native, outside the
excerpted sources) produces the "null sink" backing when both dimensions are
positive, and no surface otherwise ("a surface with zero width or height
cannot exist"). -/
def C_SkSurface_MakeNull (width height : Int) : Option Surface :=
  if 0 < width ∧ 0 < height then
    some ⟨width, height, .null, 1, 0, none, 0, fun _ _ _ => 0⟩
  else none

/-- `Surface::new_null` (surface.rs): delegates to the native constructor and
translates a null pointer into `none`. -/
def Surface.new_null (width height : Int) : Option Surface :=
  C_SkSurface_MakeNull width height

/-- Modelled from the spec: `C_SkSurface_MakeRasterN32Premul` (native, outside
the excerpted sources) "allocates width × height × 4 bytes, fixed to a
premultiplied native-endian 32-bit format; fails only if width or height ≤ 0";
pixel memory is zero-initialized, and the returned handle holds exactly one
live owner. -/
def C_SkSurface_MakeRasterN32Premul (width height : Int) : Option Surface :=
  if 0 < width ∧ 0 < height then
    some ⟨width, height, .raster, 1, 0, none, 0, fun _ _ _ => 0⟩
  else none

/-- `Surface::new_raster_n32_premul` (surface.rs): delegates to the native
constructor and translates a null pointer into `none`. -/
def Surface.new_raster_n32_premul (width height : Int) : Option Surface :=
  C_SkSurface_MakeRasterN32Premul width height

/-- Modelled from the spec: `C_SkSurface_MakeRasterDirect` (native, outside
the excerpted sources) wraps a caller buffer whose layout is described by
`image_info` and `row_bytes`; it yields no surface when either dimension is
non-positive ("a surface with zero width or height cannot exist").  The
surface content reads straight out of the caller buffer at
`y * row_bytes + x * bytesPerPixel + k`.  Format-support checks of the native
engine are outside the spec and not modelled. -/
def C_SkSurface_MakeRasterDirect (image_info : ImageInfo) (pixels : List Nat)
    (row_bytes : Nat) : Option Surface :=
  if 0 < image_info.width ∧ 0 < image_info.height then
    some ⟨image_info.width, image_info.height, .raster, 1, 0, none, 0,
      fun x y k => pixels.getD (y.toNat * row_bytes + x.toNat * image_info.bytesPerPixel + k) 0⟩
  else none

/-- `Surface::new_raster_direct` (surface.rs): the row stride defaults to
`image_info.min_row_bytes()` when not given; the call returns `none` without
reaching the native constructor when the buffer holds fewer than
`image_info.compute_byte_size(row_bytes)` bytes.  (The `Borrows` wrapper that
ties the result to the buffer lifetime carries no run-time data and is not
part of the value-level embedding.) -/
def Surface.new_raster_direct (image_info : ImageInfo) (pixels : List Nat)
    (row_bytes : Option Nat) : Option Surface :=
  let row_bytes := row_bytes.getD image_info.min_row_bytes
  if pixels.length < image_info.compute_byte_size row_bytes then none
  else C_SkSurface_MakeRasterDirect image_info pixels row_bytes

/-- Pixel snapshot: an immutable image; for the claims treated here only the
region it covers is relevant. -/
structure Image where
  bounds : IRect
deriving DecidableEq, Repr

/-- Modelled from the spec: `C_SkSurface_makeImageSnapshot` (native, outside
the excerpted sources).  The null sink's "snapshot operation always yields no
image" (null pointer); otherwise the bounds variant "intersects the requested
rectangle with surface bounds and yields none if the intersection is empty",
and the whole-surface variant covers the surface bounds. -/
def C_SkSurface_makeImageSnapshot (s : Surface) (bounds : Option IRect) : Option Image :=
  if s.backing = .null then none
  else
    match bounds with
    | none => some ⟨s.bounds⟩
    | some b => (b.intersect s.bounds).map fun r => ⟨r⟩

/-- Rust `Option::unwrap`: yields the value, and panics on `none`; the panic
is embedded as `Except.error ()`. -/
def unwrap {α : Type} : Option α → Except Unit α
  | some a => .ok a
  | none => .error ()

/-- `Surface::image_snapshot` (surface.rs): calls the native snapshot with a
null bounds pointer and `unwrap`s the translated optional, so a null pointer
from the native side is a panic, not a `none`. -/
def Surface.image_snapshot (s : Surface) : Except Unit Image :=
  unwrap (C_SkSurface_makeImageSnapshot s none)

/-- `Surface::image_snapshot_with_bounds` (surface.rs): calls the native
snapshot with the given bounds and translates a null pointer into `none`. -/
def Surface.image_snapshot_with_bounds (s : Surface) (bounds : IRect) : Option Image :=
  C_SkSurface_makeImageSnapshot s (some bounds)

/-- Modelled from the spec: the copy performed by the native `readPixels1` for
one intersection rectangle `r` (in surface coordinates): each byte of each
pixel of `r` is written into the destination buffer at
`(y - src_y) * dst_row_bytes + (x - src_x) * bytesPerPixel + k`.  Format
conversion math is out of scope of the spec; bytes transfer unchanged. -/
def copyRect (s : Surface) (dst_info : ImageInfo) (dst_row_bytes : Nat)
    (src_x src_y : Int) (r : IRect) (dst : List Nat) : List Nat :=
  (List.range (r.bottom - r.top).toNat).foldl
    (fun acc dy =>
      (List.range (r.right - r.left).toNat).foldl
        (fun acc2 dx =>
          (List.range dst_info.bytesPerPixel).foldl
            (fun acc3 k =>
              let x : Int := r.left + dx
              let y : Int := r.top + dy
              acc3.set
                ((y - src_y).toNat * dst_row_bytes + (x - src_x).toNat * dst_info.bytesPerPixel + k)
                (s.content x y k))
            acc2)
        acc)
    dst

/-- Modelled from the spec: the native `readPixels1` (outside the excerpted
sources) "copies the intersection of [src_offset, src_offset+dest_dimensions)
with surface bounds into dest_buffer" and "returns failure (no partial copy)
when source and destination rectangles do not intersect"; the null sink has no
readable pixels.  The result pairs the success flag with the (possibly
updated) destination buffer. -/
def readPixels1 (s : Surface) (dst_info : ImageInfo) (dst_pixels : List Nat)
    (dst_row_bytes : Nat) (src_x src_y : Int) : Bool × List Nat :=
  match IRect.intersect ⟨src_x, src_y, src_x + dst_info.width, src_y + dst_info.height⟩ s.bounds with
  | none => (false, dst_pixels)
  | some r =>
    if s.backing = .null then (false, dst_pixels)
    else (true, copyRect s dst_info dst_row_bytes src_x src_y r dst_pixels)

/-- `Surface::read_pixels` (surface.rs): returns `false` without touching the
destination when `dst_info.valid_pixels(dst_row_bytes, dst_pixels)` fails,
otherwise delegates to the native `readPixels1`. -/
def Surface.read_pixels (s : Surface) (dst_info : ImageInfo) (dst_pixels : List Nat)
    (dst_row_bytes : Nat) (src_x src_y : Int) : Bool × List Nat :=
  if ¬ dst_info.valid_pixels dst_row_bytes dst_pixels then (false, dst_pixels)
  else readPixels1 s dst_info dst_pixels dst_row_bytes src_x src_y

/-- Modelled from the spec: `SkSurface::getCanvas` (native, outside the
excerpted sources): the surface "owns exactly one drawing context (created
lazily, cached, returned on repeated requests — same instance every time)".
Identity of the context is embedded as a numeric identifier. -/
def Surface.getCanvas (s : Surface) : Nat × Surface :=
  match s.canvasCache with
  | some c => (c, s)
  | none =>
    (s.nextCanvasId,
      { s with canvasCache := some s.nextCanvasId, nextCanvasId := s.nextCanvasId + 1 })

/-- `Surface::canvas` (surface.rs): borrows the canvas returned by the native
`getCanvas`; the returned identity is the canvas identity. -/
def Surface.canvas (s : Surface) : Nat × Surface :=
  s.getCanvas

/-- ContentChangeMode (`SkSurface_ContentChangeMode`): discard or retain the
existing pixels when content is about to change. -/
inductive ContentChangeMode where
  | discard
  | retain
deriving DecidableEq, Repr

/-- `Surface::generation_id` (surface.rs): reads the content-version counter
("unique value identifying the content"). -/
def Surface.generation_id (s : Surface) : Nat :=
  s.genId

/-- Modelled from the spec: `SkSurface::notifyContentWillChange` (native,
outside the excerpted sources) advances the content-version counter;
"subsequent calls to generation_id return a different value".  The mode is a
GPU optimization hint, "not observable on raster backings". -/
def Surface.notify_content_will_change (s : Surface) (_mode : ContentChangeMode) : Surface :=
  { s with genId := s.genId + 1 }

/-- Modelled from the spec: a drawing operation issued through the surface's
canvas; the "content-version counter increments on every drawing operation".
Only the counter effect is modelled — rendered pixels are produced by the
external engine. -/
def Surface.drawOperation (s : Surface) : Surface :=
  { s with genId := s.genId + 1 }

/-- An observable mutation of a surface over its lifetime: a drawing
operation or an explicit content-change notification. -/
inductive SurfaceOp where
  | draw
  | notifyContentWillChange (mode : ContentChangeMode)
deriving DecidableEq, Repr

/-- Apply one surface operation. -/
def Surface.applyOp (s : Surface) : SurfaceOp → Surface
  | .draw => s.drawOperation
  | .notifyContentWillChange mode => s.notify_content_will_change mode

/-- Apply a sequence of surface operations in order. -/
def Surface.applyOps (s : Surface) (ops : List SurfaceOp) : Surface :=
  ops.foldl Surface.applyOp s

/-- Bounding box of one glyph as reported by the external layout engine
(`TextBox`); its geometry is opaque structured data at this layer. -/
structure TextBox where
  id : Nat
deriving DecidableEq, Repr

/-- RectHeightStyle: enumerated policy for per-line box height, an opaque
enumerant consumed, not interpreted, by this layer. -/
inductive RectHeightStyle where
  | tight
  | max
  | includeLineSpacingMiddle
  | includeLineSpacingTop
  | includeLineSpacingBottom
  | strut
deriving DecidableEq, Repr

/-- RectWidthStyle: enumerated policy for per-line box width, an opaque
enumerant consumed, not interpreted, by this layer. -/
inductive RectWidthStyle where
  | tight
  | max
deriving DecidableEq, Repr

/-- Paragraph handle state: whether a layout pass has run, the unresolved
glyph count the font-resolution collaborator reports once shaped, and the
per-glyph bounding boxes the external layout engine produces. -/
structure Paragraph where
  laidOut : Bool
  fUnresolvedGlyphs : Nat
  glyphBoxes : List TextBox
deriving DecidableEq, Repr

/-- Modelled from the spec: `C_Paragraph_unresolvedGlyphs` (native, outside
the excerpted sources) returns a negative value (−1) when "no layout pass has
run yet", otherwise "the count of glyphs the font-resolution collaborator
could not map to a glyph in any available font". -/
def C_Paragraph_unresolvedGlyphs (p : Paragraph) : Int :=
  if p.laidOut then (p.fUnresolvedGlyphs : Int) else -1

/-- `Paragraph::unresolved_glyphs` (paragraph.rs): converts the native result
with `try_into().ok()`, so a negative native value becomes `none`. -/
def Paragraph.unresolved_glyphs (p : Paragraph) : Option Nat :=
  (C_Paragraph_unresolvedGlyphs p).toNat'

/-- Modelled from the spec: `C_Paragraph_getRectsForRange` (native, outside
the excerpted sources) "returns a sequence of bounding boxes covering glyphs
in [start, end)" (end exclusive); the boxes themselves are computed by the
external layout engine. -/
def C_Paragraph_getRectsForRange (p : Paragraph) (start stop : Nat)
    (_hs : RectHeightStyle) (_ws : RectWidthStyle) : List TextBox :=
  (p.glyphBoxes.drop start).take (stop - start)

/-- Rust `usize::try_into::<u32>()` as used on the range endpoints of
`get_rects_for_range`: succeeds exactly when the value fits the native
32-bit unsigned index width. -/
def usizeTryIntoU32 (n : Nat) : Option Nat :=
  if n < 2 ^ 32 then some n else none

/-- `Paragraph::get_rects_for_range` (paragraph.rs): converts `range.start`
and `range.end` with `try_into().unwrap()` before the native call; a failing
conversion is a panic (`Except.error`), not an empty result. -/
def Paragraph.get_rects_for_range (p : Paragraph) (start stop : Nat)
    (hs : RectHeightStyle) (ws : RectWidthStyle) : Except Unit (List TextBox) :=
  match usizeTryIntoU32 start, usizeTryIntoU32 stop with
  | some s, some e => .ok (C_Paragraph_getRectsForRange p s e hs ws)
  | _, _ => .error ()

/-- C2: for a null surface constructed with positive dimensions (100, 100),
the native snapshot yields no image, `width`/`height` still report 100/100 —
but the parameterless `image_snapshot()` wrapper `unwrap`s the absent image
and therefore panics (`Except.error ()`) instead of reporting "no image". -/
theorem image_snapshot_null_panics :
    (Surface.new_null 100 100).map
        (fun s => (s.image_snapshot, s.width, s.height))
      = some (Except.error (), 100, 100) := by
  rfl

/-- C3 (amended): `new_raster_direct` yields no surface whenever the buffer
length is strictly below the byte size computed from the effective row stride
and the info height; when the length equals exactly that size **and the info
dimensions are positive**, it succeeds; an absent row stride defaults to
`min_row_bytes`. -/
theorem new_raster_direct_spec (image_info : ImageInfo) (pixels : List Nat) (rb : Nat) :
    (∀ rbo : Option Nat,
        pixels.length < image_info.compute_byte_size (rbo.getD image_info.min_row_bytes) →
        Surface.new_raster_direct image_info pixels rbo = none) ∧
    (0 < image_info.width → 0 < image_info.height →
        pixels.length = image_info.compute_byte_size rb →
        (Surface.new_raster_direct image_info pixels (some rb)).isSome = true) ∧
    (0 < image_info.width → 0 < image_info.height →
        pixels.length = image_info.compute_byte_size image_info.min_row_bytes →
        (Surface.new_raster_direct image_info pixels none).isSome = true) ∧
    Surface.new_raster_direct image_info pixels none
      = Surface.new_raster_direct image_info pixels (some image_info.min_row_bytes) := by
  refine ⟨?_, ?_, ?_, rfl⟩
  · intro rbo h
    simp only [Surface.new_raster_direct]
    rw [if_pos h]
  · intro hw hh hlen
    simp only [Surface.new_raster_direct, Option.getD_some]
    rw [if_neg (by omega), C_SkSurface_MakeRasterDirect, if_pos ⟨hw, hh⟩]
    rfl
  · intro hw hh hlen
    simp only [Surface.new_raster_direct, Option.getD_none]
    rw [if_neg (by omega), C_SkSurface_MakeRasterDirect, if_pos ⟨hw, hh⟩]
    rfl

/-- C3 witness: a 2×2 RGBA-like info with stride 8 and a buffer of exactly
16 bytes succeeds; a 15-byte buffer yields no surface; the stride defaults to
`min_row_bytes` when absent. -/
theorem new_raster_direct_spec_witness :
    Surface.new_raster_direct ⟨2, 2, 4⟩ (List.replicate 15 0) (some 8) = none ∧
    (Surface.new_raster_direct ⟨2, 2, 4⟩ (List.replicate 16 0) (some 8)).isSome = true ∧
    Surface.new_raster_direct ⟨2, 2, 4⟩ (List.replicate 16 0) none
      = Surface.new_raster_direct ⟨2, 2, 4⟩ (List.replicate 16 0) (some (ImageInfo.min_row_bytes ⟨2, 2, 4⟩)) :=
  ⟨(new_raster_direct_spec ⟨2, 2, 4⟩ (List.replicate 15 0) 8).1 (some 8) (by decide),
   (new_raster_direct_spec ⟨2, 2, 4⟩ (List.replicate 16 0) 8).2.1 (by decide) (by decide) (by decide),
   (new_raster_direct_spec ⟨2, 2, 4⟩ (List.replicate 16 0) 8).2.2.2⟩

/-- C3 counterexample: for the info with zero dimensions, the empty buffer
has length exactly equal to the computed byte size, yet construction yields
no surface — the claim's success half does not hold for every `ImageInfo`. -/
theorem new_raster_direct_exact_size_cex :
    ([] : List Nat).length
        = (ImageInfo.mk 0 0 4).compute_byte_size (ImageInfo.min_row_bytes ⟨0, 0, 4⟩) ∧
    (Surface.new_raster_direct ⟨0, 0, 4⟩ [] none).isNone = true := by
  constructor
  · rfl
  · rfl

/-- C5: `new_raster_n32_premul` yields no surface for any non-positive
dimension, and for 1×1 yields a surface whose reference count records exactly
one live owner. -/
theorem new_raster_n32_premul_spec (width height : Int) (h : width ≤ 0 ∨ height ≤ 0) :
    Surface.new_raster_n32_premul width height = none ∧
    (Surface.new_raster_n32_premul 1 1).map Surface.refCnt = some 1 := by
  constructor
  · simp only [Surface.new_raster_n32_premul, C_SkSurface_MakeRasterN32Premul]
    rw [if_neg (by omega)]
  · rfl

/-- C5 witness: instantiated at width 0, height −3. -/
theorem new_raster_n32_premul_spec_witness :
    Surface.new_raster_n32_premul 0 (-3) = none ∧
    (Surface.new_raster_n32_premul 1 1).map Surface.refCnt = some 1 :=
  new_raster_n32_premul_spec 0 (-3) (Or.inl (by decide))

/-- C4: `read_pixels` returns `false` and leaves the destination buffer
entirely untouched when the destination buffer is shorter than
`dst_row_bytes × dst_info.height`, and likewise — with no partial copy — when
the source rectangle `[src, src + dst_dimensions)` does not intersect the
surface bounds. -/
theorem read_pixels_failure_spec (s : Surface) (dst_info : ImageInfo)
    (dst_pixels : List Nat) (dst_row_bytes : Nat) (src_x src_y : Int) :
    (dst_pixels.length < dst_info.compute_byte_size dst_row_bytes →
      s.read_pixels dst_info dst_pixels dst_row_bytes src_x src_y = (false, dst_pixels)) ∧
    (IRect.intersect ⟨src_x, src_y, src_x + dst_info.width, src_y + dst_info.height⟩ s.bounds
        = none →
      s.read_pixels dst_info dst_pixels dst_row_bytes src_x src_y = (false, dst_pixels)) := by
  constructor
  · intro h
    have hv : ¬ (dst_info.valid_pixels dst_row_bytes dst_pixels = true) := by
      simp only [ImageInfo.valid_pixels, decide_eq_true_eq]
      omega
    simp [Surface.read_pixels, hv]
  · intro h
    by_cases hv : dst_info.valid_pixels dst_row_bytes dst_pixels = true
    · simp [Surface.read_pixels, hv, readPixels1, h]
    · simp [Surface.read_pixels, hv]

/-- C4 witness: on a 10×10 raster surface, an empty destination buffer for a
2×2/stride-8 descriptor fails untouched, and a 16-byte buffer read from
offset (50, 50) — disjoint from the surface — fails untouched. -/
theorem read_pixels_failure_spec_witness :
    Surface.read_pixels ⟨10, 10, .raster, 1, 0, none, 0, fun _ _ _ => 0⟩
        ⟨2, 2, 4⟩ [] 8 0 0 = (false, []) ∧
    Surface.read_pixels ⟨10, 10, .raster, 1, 0, none, 0, fun _ _ _ => 0⟩
        ⟨2, 2, 4⟩ (List.replicate 16 7) 8 50 50 = (false, List.replicate 16 7) :=
  ⟨(read_pixels_failure_spec _ _ _ _ _ _).1 (by decide),
   (read_pixels_failure_spec _ _ _ _ _ _).2 (by decide)⟩

/-- C6 (amended): the bounds-taking snapshot yields no image when the
requested rectangle is disjoint from the surface bounds; when the rectangle
intersects the bounds of a surface that is **not the null sink**, the
resulting image covers exactly the intersection. -/
theorem image_snapshot_with_bounds_spec (s : Surface) (bounds : IRect) :
    (IRect.intersect bounds s.bounds = none →
      s.image_snapshot_with_bounds bounds = none) ∧
    (∀ r : IRect, IRect.intersect bounds s.bounds = some r → s.backing ≠ .null →
      s.image_snapshot_with_bounds bounds = some ⟨r⟩) := by
  constructor
  · intro h
    simp [Surface.image_snapshot_with_bounds, C_SkSurface_makeImageSnapshot, h]
  · intro r h hb
    simp [Surface.image_snapshot_with_bounds, C_SkSurface_makeImageSnapshot, h, hb]

/-- C6 witness: on a 10×10 raster surface, the rectangle at (20, 20) of size
5×5 yields no image, and the rectangle (5, 5)–(15, 15) yields the image over
the intersection (5, 5)–(10, 10). -/
theorem image_snapshot_with_bounds_spec_witness :
    Surface.image_snapshot_with_bounds ⟨10, 10, .raster, 1, 0, none, 0, fun _ _ _ => 0⟩
        ⟨20, 20, 25, 25⟩ = none ∧
    Surface.image_snapshot_with_bounds ⟨10, 10, .raster, 1, 0, none, 0, fun _ _ _ => 0⟩
        ⟨5, 5, 15, 15⟩ = some ⟨⟨5, 5, 10, 10⟩⟩ :=
  ⟨(image_snapshot_with_bounds_spec _ _).1 (by decide),
   (image_snapshot_with_bounds_spec _ _).2 ⟨5, 5, 10, 10⟩ (by decide) (by decide)⟩

/-- C6 counterexample: the 10×10 null surface and the rectangle
(5, 5)–(15, 15) partially overlap — their intersection is the nonempty
rectangle (5, 5)–(10, 10) — yet the snapshot yields no image rather than an
image covering the intersection, so the claim fails as stated for every
surface. -/
theorem image_snapshot_with_bounds_null_cex :
    (Surface.new_null 10 10).map
        (fun s => (IRect.intersect ⟨5, 5, 15, 15⟩ s.bounds,
          s.image_snapshot_with_bounds ⟨5, 5, 15, 15⟩))
      = some (some ⟨5, 5, 10, 10⟩, none) := by
  rfl

/-- C7: calling `canvas()` twice on the same surface returns the same
drawing-context identity both times — the lazily created context is cached
and returned on repeated requests. -/
theorem canvas_identity_stable (s : Surface) :
    (s.canvas).1 = ((s.canvas).2.canvas).1 := by
  cases h : s.canvasCache <;>
    simp [Surface.canvas, Surface.getCanvas, h]

/-- C8: `notify_content_will_change` strictly increases the content-version
counter observed via `generation_id`, every drawing operation strictly
increases it, and over any sequence of surface operations the counter is
monotonically increasing. -/
theorem generation_id_monotone (s : Surface) (mode : ContentChangeMode) (ops : List SurfaceOp) :
    s.generation_id < (s.notify_content_will_change mode).generation_id ∧
    s.generation_id < s.drawOperation.generation_id ∧
    s.generation_id ≤ (s.applyOps ops).generation_id := by
  refine ⟨Nat.lt_succ_self _, Nat.lt_succ_self _, ?_⟩
  induction ops generalizing s with
  | nil => exact Nat.le_refl _
  | cons op ops ih =>
    refine Nat.le_trans ?_ (ih (s.applyOp op))
    cases op <;>
      simp [Surface.applyOp, Surface.drawOperation, Surface.notify_content_will_change,
        Surface.generation_id]

/-- C9: `unresolved_glyphs` returns `none` exactly when no layout pass has
run yet; after a layout pass it returns the count of glyphs the
font-resolution collaborator could not map to a glyph in any available
font. -/
theorem unresolved_glyphs_spec (p : Paragraph) :
    (p.unresolved_glyphs = none ↔ p.laidOut = false) ∧
    (p.laidOut = true → p.unresolved_glyphs = some p.fUnresolvedGlyphs) := by
  constructor
  · cases h : p.laidOut
    · refine iff_of_true ?_ rfl
      show Int.toNat' (C_Paragraph_unresolvedGlyphs p) = none
      rw [C_Paragraph_unresolvedGlyphs, if_neg (by simp [h])]
      rfl
    · refine iff_of_false ?_ (by simp)
      show ¬ Int.toNat' (C_Paragraph_unresolvedGlyphs p) = none
      rw [C_Paragraph_unresolvedGlyphs, if_pos (by simp [h])]
      intro hc
      exact Option.noConfusion ((rfl : Int.toNat' ((p.fUnresolvedGlyphs : Nat) : Int) = some p.fUnresolvedGlyphs).symm.trans hc)
  · intro h
    show Int.toNat' (C_Paragraph_unresolvedGlyphs p) = some p.fUnresolvedGlyphs
    rw [C_Paragraph_unresolvedGlyphs, if_pos (by simp [h])]
    rfl

/-- C9 witness: a paragraph that has not been shaped reports `none`; a shaped
paragraph with 3 unresolved glyphs reports `some 3`. -/
theorem unresolved_glyphs_spec_witness :
    (Paragraph.mk false 3 []).unresolved_glyphs = none ∧
    (Paragraph.mk true 3 []).unresolved_glyphs = some 3 :=
  ⟨(unresolved_glyphs_spec ⟨false, 3, []⟩).1.mpr rfl,
   (unresolved_glyphs_spec ⟨true, 3, []⟩).2 rfl⟩

/-- Helper: the endpoint conversion succeeds on values below the 32-bit
bound. -/
theorem usizeTryIntoU32_lt (n : Nat) (h : n < 2 ^ 32) : usizeTryIntoU32 n = some n := by
  unfold usizeTryIntoU32
  rw [if_pos h]

/-- Helper: the endpoint conversion fails on values at or above the 32-bit
bound. -/
theorem usizeTryIntoU32_ge (n : Nat) (h : 2 ^ 32 ≤ n) : usizeTryIntoU32 n = none := by
  unfold usizeTryIntoU32
  rw [if_neg (by omega)]

/-- C10: `get_rects_for_range` panics (an `unwrap` on a failed integer
conversion) when either range endpoint does not fit the native 32-bit
unsigned index width; when both endpoints fit, the conversions succeed and
the call returns the native result without panicking. -/
theorem get_rects_for_range_conversion_spec (p : Paragraph) (start stop : Nat)
    (hs : RectHeightStyle) (ws : RectWidthStyle) :
    (2 ^ 32 ≤ start ∨ 2 ^ 32 ≤ stop →
      p.get_rects_for_range start stop hs ws = .error ()) ∧
    (start < 2 ^ 32 → stop < 2 ^ 32 →
      p.get_rects_for_range start stop hs ws
        = .ok (C_Paragraph_getRectsForRange p start stop hs ws)) := by
  constructor
  · intro h
    rcases h with h | h
    · cases hc2 : usizeTryIntoU32 stop <;>
        simp [Paragraph.get_rects_for_range, usizeTryIntoU32_ge start h, hc2]
    · cases hc2 : usizeTryIntoU32 start <;>
        simp [Paragraph.get_rects_for_range, usizeTryIntoU32_ge stop h, hc2]
  · intro h1 h2
    simp [Paragraph.get_rects_for_range, usizeTryIntoU32_lt start h1, usizeTryIntoU32_lt stop h2]

/-- C10 witness: the range `[2^32, 2^32)` panics, while `[0, 1)` on a
one-glyph paragraph returns the single box without panicking. -/
theorem get_rects_for_range_conversion_spec_witness :
    (Paragraph.mk true 0 [⟨7⟩]).get_rects_for_range (2 ^ 32) (2 ^ 32)
        RectHeightStyle.tight RectWidthStyle.tight = .error () ∧
    (Paragraph.mk true 0 [⟨7⟩]).get_rects_for_range 0 1
        RectHeightStyle.tight RectWidthStyle.tight
      = .ok (C_Paragraph_getRectsForRange ⟨true, 0, [⟨7⟩]⟩ 0 1
          RectHeightStyle.tight RectWidthStyle.tight) :=
  ⟨(get_rects_for_range_conversion_spec ⟨true, 0, [⟨7⟩]⟩ (2 ^ 32) (2 ^ 32)
      RectHeightStyle.tight RectWidthStyle.tight).1 (Or.inl (Nat.le_refl _)),
   (get_rects_for_range_conversion_spec ⟨true, 0, [⟨7⟩]⟩ 0 1
      RectHeightStyle.tight RectWidthStyle.tight).2 (by decide) (by decide)⟩

end SkiaSafe
